import Mathlib

/-!
Verification of the metrics engine of `data_quality_calculator.py`
(the `calculate_metrics` function, lines 134-236).

The engine is embedded shallowly over `ℚ`: every arithmetic step of the
source is exact rational arithmetic except step 5, which calls the
inverse/forward standard-normal CDF (`scipy.stats.norm.ppf`, `stats.norm.cdf`)
and square roots.  Those two transcendental outputs — the minimum detectable
effect `mde = z_alpha * pooled_se * 2` and the power `Φ(z_score - z_alpha)` —
enter the rest of the computation only as opaque numbers, so the embedded
`calculate_metrics` takes them as explicit parameters `mde` and `power`.
In the source both are functions of `confidence`, the observed conversions
and the effective samples only; in particular neither depends on
`segmentation_errors` or `timeframe_bias`.
-/

namespace DataQuality

/-- Per-group data-quality parameters, as read from the three widgets of each
sidebar column (source lines 100-111): event loss, user id errors, partial
data, all percentages. -/
structure QualityProfile where
  event_loss : ℚ
  user_id_error : ℚ
  partial_data : ℚ
  deriving DecidableEq

/-- The experiment parameters read from the sidebar widgets
(source lines 90-116). -/
structure ExperimentInput where
  sample_size : ℕ
  baseline_conversion : ℚ
  expected_lift : ℚ
  confidence : ℕ
  control : QualityProfile
  variation : QualityProfile
  segmentation_errors : ℚ
  timeframe_bias : ℚ
  deriving DecidableEq

/-- Source line 136: `sample_size / 2 * (1 - control_user_id_error / 100) *
(1 - control_event_loss / 100)`. -/
def control_effective_sample (i : ExperimentInput) : ℚ :=
  (i.sample_size : ℚ) / 2 * (1 - i.control.user_id_error / 100) *
    (1 - i.control.event_loss / 100)

/-- Source line 137. -/
def variation_effective_sample (i : ExperimentInput) : ℚ :=
  (i.sample_size : ℚ) / 2 * (1 - i.variation.user_id_error / 100) *
    (1 - i.variation.event_loss / 100)

/-- Source line 138. -/
def total_effective_sample (i : ExperimentInput) : ℚ :=
  control_effective_sample i + variation_effective_sample i

/-- Source line 141: `baseline_conversion * (1 - control_partial_data / 100)`. -/
def control_observed_conversion (i : ExperimentInput) : ℚ :=
  i.baseline_conversion * (1 - i.control.partial_data / 100)

/-- Source line 142: `baseline_conversion * (1 + expected_lift / 100)`. -/
def variation_expected_conversion (i : ExperimentInput) : ℚ :=
  i.baseline_conversion * (1 + i.expected_lift / 100)

/-- Source line 143. -/
def variation_observed_conversion (i : ExperimentInput) : ℚ :=
  variation_expected_conversion i * (1 - i.variation.partial_data / 100)

/-- Source line 146: `((variation_observed_conversion /
control_observed_conversion) - 1) * 100`. -/
def reported_lift (i : ExperimentInput) : ℚ :=
  (variation_observed_conversion i / control_observed_conversion i - 1) * 100

/-- Source line 149. -/
def control_quality_score (i : ExperimentInput) : ℚ :=
  100 - (i.control.event_loss + i.control.user_id_error + i.control.partial_data) / 3

/-- Source line 150. -/
def variation_quality_score (i : ExperimentInput) : ℚ :=
  100 - (i.variation.event_loss + i.variation.user_id_error + i.variation.partial_data) / 3

/-- Source line 151: `abs(control_quality_score - variation_quality_score)`. -/
def quality_difference (i : ExperimentInput) : ℚ :=
  |control_quality_score i - variation_quality_score i|

/-- Source lines 171-172: variation total error minus control total error. -/
def data_quality_impact (i : ExperimentInput) : ℚ :=
  (i.variation.event_loss + i.variation.user_id_error + i.variation.partial_data) -
    (i.control.event_loss + i.control.user_id_error + i.control.partial_data)

/-- Source line 173: `abs(data_quality_impact / 5) if data_quality_impact < 0
else 0`. -/
def false_positive_risk (i : ExperimentInput) : ℚ :=
  if data_quality_impact i < 0 then |data_quality_impact i / 5| else 0

/-- Source line 174: `(data_quality_impact / 5) if data_quality_impact > 0
else 0`. -/
def false_negative_risk (i : ExperimentInput) : ℚ :=
  if data_quality_impact i > 0 then data_quality_impact i / 5 else 0

/-- The five conclusion labels of the if/elif chain at source lines 177-191. -/
inductive Conclusion where
  | likelyFalseNegative
  | potentialFalsePositive
  | inconclusive
  | likelyValidResult
  | requiresInvestigation
  deriving DecidableEq

/-- The message string attached to each label (source lines 178-190). -/
def Conclusion.text : Conclusion → String
  | .likelyFalseNegative =>
      "Likely false negative (true effect is being diluted by data quality issues)"
  | .potentialFalsePositive =>
      "Potential false positive (observed lift is artificially inflated)"
  | .inconclusive => "Inconclusive (effect size is below detection threshold)"
  | .likelyValidResult => "Likely valid result (observed lift matches expected)"
  | .requiresInvestigation => "Requires investigation (unexpected results)"

/-- The severity class attached to each label (source lines 179-191). -/
def Conclusion.severity : Conclusion → String
  | .likelyFalseNegative => "warning"
  | .potentialFalsePositive => "danger"
  | .inconclusive => "info"
  | .likelyValidResult => "success"
  | .requiresInvestigation => "warning"

/-- The if/elif chain at source lines 177-191.  `mde` is the detection
threshold computed at source line 168. -/
def conclusion (i : ExperimentInput) (mde : ℚ) : Conclusion :=
  if reported_lift i > 0 ∧ reported_lift i < i.expected_lift ∧
      data_quality_impact i > 5 then
    .likelyFalseNegative
  else if reported_lift i > i.expected_lift ∧ data_quality_impact i < -5 then
    .potentialFalsePositive
  else if |reported_lift i| < mde then
    .inconclusive
  else if |reported_lift i - i.expected_lift| < mde / 2 then
    .likelyValidResult
  else
    .requiresInvestigation

/-- Source line 194: `list(range(0, 21, 2))`, evaluated. -/
def error_rates : List ℕ := [0, 2, 4, 6, 8, 10, 12, 14, 16, 18, 20]

/-- Source line 201: `control_event_loss / 100 + control_user_id_error / 100 +
(error / 100) * (control_partial_data / 100)`. -/
def control_error_impact (i : ExperimentInput) (error : ℚ) : ℚ :=
  i.control.event_loss / 100 + i.control.user_id_error / 100 +
    error / 100 * (i.control.partial_data / 100)

/-- Source line 202. -/
def variation_error_impact (i : ExperimentInput) (error : ℚ) : ℚ :=
  i.variation.event_loss / 100 + i.variation.user_id_error / 100 +
    error / 100 * (i.variation.partial_data / 100)

/-- Source line 204. -/
def control_observed_rate (i : ExperimentInput) (error : ℚ) : ℚ :=
  i.baseline_conversion * (1 - control_error_impact i error)

/-- Source line 205: the true variation rate used as the base of the sweep. -/
def variation_true_rate (i : ExperimentInput) : ℚ :=
  i.baseline_conversion * (1 + i.expected_lift / 100)

/-- Source line 206. -/
def variation_observed_rate (i : ExperimentInput) (error : ℚ) : ℚ :=
  variation_true_rate i * (1 - variation_error_impact i error)

/-- Source line 208: the per-point lift of the sweep. -/
def observed_lift (i : ExperimentInput) (error : ℚ) : ℚ :=
  (variation_observed_rate i error / control_observed_rate i error - 1) * 100

/-- One row of the chart DataFrame built at source lines 214-219. -/
structure CurvePoint where
  error_rate : ℚ
  true_lift : ℚ
  observed_lift : ℚ
  significant : Bool
  deriving DecidableEq

/-- The sweep loop at source lines 194-219: one point per error rate, each
flagged significant when `abs(observed_lift) > mde` with the single `mde`
of source line 168. -/
def chart_data (i : ExperimentInput) (mde : ℚ) : List CurvePoint :=
  error_rates.map fun (e : ℕ) =>
    { error_rate := (e : ℚ)
      true_lift := i.expected_lift
      observed_lift := observed_lift i (e : ℚ)
      significant := decide (|observed_lift i (e : ℚ)| > mde) }

/-- The dictionary returned at source lines 221-236. -/
structure ExperimentResult where
  effective_sample_size : ℚ
  control_observed_conversion : ℚ
  variation_observed_conversion : ℚ
  actual_lift : ℚ
  bias_risk_score : ℚ
  stat_power : ℚ
  false_positive_risk : ℚ
  false_negative_risk : ℚ
  detection_threshold : ℚ
  conclusion : Conclusion
  conclusion_class : String
  chart_data : List CurvePoint
  control_quality_score : ℚ
  variation_quality_score : ℚ
  deriving DecidableEq

/-- `calculate_metrics` (source lines 134-236) with the two transcendental
step-5 outputs passed in: `mde` stands for `z_alpha * pooled_se * 2`
(source line 168) and `power` for `stats.norm.cdf(z_score - z_alpha)`
(source line 165); in the source both are determined by `confidence`, the
observed conversions and the effective samples, never by
`segmentation_errors` or `timeframe_bias`. -/
def calculate_metrics (i : ExperimentInput) (mde power : ℚ) : ExperimentResult :=
  { effective_sample_size := total_effective_sample i
    control_observed_conversion := control_observed_conversion i
    variation_observed_conversion := variation_observed_conversion i
    actual_lift := reported_lift i
    bias_risk_score := quality_difference i
    stat_power := power * 100
    false_positive_risk := false_positive_risk i
    false_negative_risk := false_negative_risk i
    detection_threshold := mde
    conclusion := conclusion i mde
    conclusion_class := (conclusion i mde).severity
    chart_data := chart_data i mde
    control_quality_score := control_quality_score i
    variation_quality_score := variation_quality_score i }

/-- The default inputs of the sidebar widgets (source lines 90-116), Scenario
A of the spec. -/
def scenario_a : ExperimentInput :=
  { sample_size := 10000
    baseline_conversion := 10
    expected_lift := 5
    confidence := 95
    control := { event_loss := 2, user_id_error := 1, partial_data := 3 }
    variation := { event_loss := 5, user_id_error := 3, partial_data := 7 }
    segmentation_errors := 4
    timeframe_bias := 2 }

/-- First-match-wins evaluation of an ordered rule list, defaulting to the
final `else` label of the chain (spec 4.1 step 7 reading of the source's
if/elif chain). -/
def first_match : List (Bool × Conclusion) → Conclusion
  | [] => .requiresInvestigation
  | (c, l) :: rest => if c then l else first_match rest

/-- The four guarded rules of spec 4.1 step 7, in priority order (a)-(d),
stated as the spec words them. -/
def spec_rules (i : ExperimentInput) (mde : ℚ) : List (Bool × Conclusion) :=
  [ (decide (reported_lift i > 0 ∧ reported_lift i < i.expected_lift ∧
        data_quality_impact i > 5), .likelyFalseNegative),
    (decide (reported_lift i > i.expected_lift ∧ data_quality_impact i < -5),
      .potentialFalsePositive),
    (decide (|reported_lift i| < mde), .inconclusive),
    (decide (|reported_lift i - i.expected_lift| < mde / 2), .likelyValidResult) ]

/-- The declared range of a quality percentage per spec section 3:
each of the three rates lies in `[0, 100)`. -/
def valid_profile (q : QualityProfile) : Prop :=
  0 ≤ q.event_loss ∧ q.event_loss < 100 ∧
    0 ≤ q.user_id_error ∧ q.user_id_error < 100 ∧
    0 ≤ q.partial_data ∧ q.partial_data < 100

instance (q : QualityProfile) : Decidable (valid_profile q) := by
  unfold valid_profile; infer_instance

/-- The range each widget of the source enforces (source lines 90-116):
`number_input` min/max bounds and the confidence selectbox. -/
def widget_valid (i : ExperimentInput) : Prop :=
  100 ≤ i.sample_size ∧ i.sample_size ≤ 1000000 ∧
    1 / 10 ≤ i.baseline_conversion ∧ i.baseline_conversion ≤ 999 / 10 ∧
    -50 ≤ i.expected_lift ∧ i.expected_lift ≤ 100 ∧
    i.confidence ∈ ([90, 95, 99] : List ℕ) ∧
    (0 ≤ i.control.event_loss ∧ i.control.event_loss ≤ 50) ∧
    (0 ≤ i.control.user_id_error ∧ i.control.user_id_error ≤ 50) ∧
    (0 ≤ i.control.partial_data ∧ i.control.partial_data ≤ 50) ∧
    (0 ≤ i.variation.event_loss ∧ i.variation.event_loss ≤ 50) ∧
    (0 ≤ i.variation.user_id_error ∧ i.variation.user_id_error ≤ 50) ∧
    (0 ≤ i.variation.partial_data ∧ i.variation.partial_data ≤ 50) ∧
    (0 ≤ i.segmentation_errors ∧ i.segmentation_errors ≤ 50) ∧
    (0 ≤ i.timeframe_bias ∧ i.timeframe_bias ≤ 50)

instance (i : ExperimentInput) : Decidable (widget_valid i) := by
  unfold widget_valid; infer_instance

/-- Scenario B of the spec: identical quality profiles in both groups. -/
def scenario_b : ExperimentInput :=
  { scenario_a with
    variation := { event_loss := 2, user_id_error := 1, partial_data := 3 } }

/-- An input whose control event loss is negative, outside the declared
range `[0, 100)` of spec section 3 and below the widget minimum 0.0 of
source line 102. -/
def negative_loss_input : ExperimentInput :=
  { scenario_a with
    control := { event_loss := -5, user_id_error := 0, partial_data := 0 } }

/-- An input separating the step-8 sweep formula at `error_rate = 0` from the
step-3 lift: the control group loses 10 percent of conversions to partial
data but has no event loss and no id errors. -/
def skew_input : ExperimentInput :=
  { sample_size := 1000
    baseline_conversion := 10
    expected_lift := 0
    confidence := 95
    control := { event_loss := 0, user_id_error := 0, partial_data := 10 }
    variation := { event_loss := 0, user_id_error := 0, partial_data := 0 }
    segmentation_errors := 0
    timeframe_bias := 0 }

/-- An input on which the sweep formula at `error_rate = 0` does agree with
the step-3 lift: in each group `event_loss + user_id_error = partial_data`. -/
def aligned_input : ExperimentInput :=
  { sample_size := 1000
    baseline_conversion := 10
    expected_lift := 5
    confidence := 95
    control := { event_loss := 1, user_id_error := 2, partial_data := 3 }
    variation := { event_loss := 2, user_id_error := 3, partial_data := 5 }
    segmentation_errors := 0
    timeframe_bias := 0 }

/-- C1: the core formulas of steps 1-3. -/
theorem c1_core_formulas (i : ExperimentInput) (mde power : ℚ)
    (h : control_observed_conversion i ≠ 0) :
    (calculate_metrics i mde power).effective_sample_size =
        (i.sample_size : ℚ) / 2 * (1 - i.control.user_id_error / 100) *
          (1 - i.control.event_loss / 100) +
        (i.sample_size : ℚ) / 2 * (1 - i.variation.user_id_error / 100) *
          (1 - i.variation.event_loss / 100) ∧
    (calculate_metrics i mde power).control_observed_conversion =
        i.baseline_conversion * (1 - i.control.partial_data / 100) ∧
    (calculate_metrics i mde power).variation_observed_conversion =
        i.baseline_conversion * (1 + i.expected_lift / 100) *
          (1 - i.variation.partial_data / 100) ∧
    (calculate_metrics i mde power).actual_lift =
        ((calculate_metrics i mde power).variation_observed_conversion /
          (calculate_metrics i mde power).control_observed_conversion - 1) * 100 :=
  ⟨rfl, rfl, rfl, rfl⟩

/-- C1 witness at Scenario A. -/
theorem c1_core_formulas_witness :
    (calculate_metrics scenario_a 1 1).actual_lift =
      ((calculate_metrics scenario_a 1 1).variation_observed_conversion /
        (calculate_metrics scenario_a 1 1).control_observed_conversion - 1) * 100 := by
  have h := c1_core_formulas scenario_a 1 1
    (by norm_num [control_observed_conversion, scenario_a])
  exact h.2.2.2

/-- C5: the decision-risk heuristics of step 6. -/
theorem c5_decision_risks (i : ExperimentInput) (mde power : ℚ) :
    (calculate_metrics i mde power).false_positive_risk =
        (if data_quality_impact i < 0 then |data_quality_impact i| / 5 else 0) ∧
    (calculate_metrics i mde power).false_negative_risk =
        (if data_quality_impact i > 0 then data_quality_impact i / 5 else 0) ∧
    (i.control = i.variation →
      (calculate_metrics i mde power).bias_risk_score = 0 ∧
      (calculate_metrics i mde power).false_positive_risk = 0 ∧
      (calculate_metrics i mde power).false_negative_risk = 0) := by
  have habs : |data_quality_impact i / 5| = |data_quality_impact i| / 5 := by
    rw [abs_div]
    norm_num
  refine ⟨?_, rfl, ?_⟩
  · show false_positive_risk i = _
    rw [false_positive_risk, habs]
  · intro hcv
    have hq : data_quality_impact i = 0 := by
      rw [data_quality_impact, hcv]
      ring
    refine ⟨?_, ?_, ?_⟩
    · show quality_difference i = 0
      rw [quality_difference, control_quality_score, variation_quality_score, hcv]
      simp
    · show false_positive_risk i = 0
      rw [false_positive_risk, hq]
      norm_num
    · show false_negative_risk i = 0
      rw [false_negative_risk, hq]
      norm_num

/-- C5 witness at Scenario B. -/
theorem c5_decision_risks_witness :
    (calculate_metrics scenario_b 1 1).bias_risk_score = 0 ∧
    (calculate_metrics scenario_b 1 1).false_positive_risk = 0 ∧
    (calculate_metrics scenario_b 1 1).false_negative_risk = 0 :=
  (c5_decision_risks scenario_b 1 1).2.2 rfl

/-- C9: passthrough fields influence nothing. -/
theorem c9_passthrough (i : ExperimentInput) (mde power q t : ℚ) :
    calculate_metrics
        { i with segmentation_errors := q, timeframe_bias := t } mde power =
      calculate_metrics i mde power := rfl

/-- C10: bias risk is one third of the error-total gap. -/
theorem c10_bias_ratio (i : ExperimentInput) (mde power : ℚ) :
    (calculate_metrics i mde power).bias_risk_score = |data_quality_impact i| / 3 ∧
    ((calculate_metrics i mde power).false_positive_risk ≠ 0 →
      (calculate_metrics i mde power).false_positive_risk =
        3 / 5 * (calculate_metrics i mde power).bias_risk_score) ∧
    ((calculate_metrics i mde power).false_negative_risk ≠ 0 →
      (calculate_metrics i mde power).false_negative_risk =
        3 / 5 * (calculate_metrics i mde power).bias_risk_score) := by
  have hsub : control_quality_score i - variation_quality_score i =
      data_quality_impact i / 3 := by
    rw [control_quality_score, variation_quality_score, data_quality_impact]
    ring
  have hb : (calculate_metrics i mde power).bias_risk_score =
      |data_quality_impact i| / 3 := by
    show quality_difference i = _
    rw [quality_difference, hsub, abs_div]
    norm_num
  refine ⟨hb, ?_, ?_⟩
  · intro h
    show false_positive_risk i = _
    rw [hb]
    have hlt : data_quality_impact i < 0 := by
      by_contra hge
      exact h (by show false_positive_risk i = 0; rw [false_positive_risk, if_neg hge])
    rw [false_positive_risk, if_pos hlt, abs_div]
    norm_num
  · intro h
    show false_negative_risk i = _
    rw [hb]
    have hgt : data_quality_impact i > 0 := by
      by_contra hge
      exact h (by show false_negative_risk i = 0; rw [false_negative_risk, if_neg hge])
    rw [false_negative_risk, if_pos hgt, abs_of_pos hgt]
    ring

/-- C10 witness at Scenario A. -/
theorem c10_bias_ratio_witness :
    (calculate_metrics scenario_a 1 1).false_negative_risk =
      3 / 5 * (calculate_metrics scenario_a 1 1).bias_risk_score :=
  (c10_bias_ratio scenario_a 1 1).2.2
    (by show false_negative_risk scenario_a ≠ 0
        norm_num [false_negative_risk, data_quality_impact, scenario_a])


/-- C2: first-match-wins classification. -/
theorem c2_conclusion_priority (i : ExperimentInput) (mde power : ℚ) :
    (calculate_metrics i mde power).conclusion = first_match (spec_rules i mde) ∧
    (calculate_metrics i mde power).conclusion_class =
      ((calculate_metrics i mde power).conclusion).severity ∧
    ((calculate_metrics i mde power).conclusion,
        (calculate_metrics i mde power).conclusion_class) ∈
      ([(.likelyFalseNegative, "warning"),
        (.potentialFalsePositive, "danger"),
        (.inconclusive, "info"),
        (.likelyValidResult, "success"),
        (.requiresInvestigation, "warning")] : List (Conclusion × String)) ∧
    (reported_lift i > 0 ∧ reported_lift i < i.expected_lift ∧
        data_quality_impact i > 5 →
      (calculate_metrics i mde power).conclusion = .likelyFalseNegative) := by
  refine ⟨?_, rfl, ?_, ?_⟩
  · show conclusion i mde = _
    rw [conclusion, spec_rules]
    simp only [first_match, decide_eq_true_eq]
  · show (conclusion i mde, (conclusion i mde).severity) ∈ _
    rw [conclusion]
    split_ifs <;> simp [Conclusion.severity]
  · intro h
    show conclusion i mde = _
    rw [conclusion, if_pos h]


/-- C3: the sweep curve structure. -/
theorem c3_curve_structure (i : ExperimentInput) (mde power : ℚ) :
    ((calculate_metrics i mde power).chart_data).length = 11 ∧
    ((calculate_metrics i mde power).chart_data).map CurvePoint.error_rate =
      [0, 2, 4, 6, 8, 10, 12, 14, 16, 18, 20] ∧
    List.Chain' (· < ·)
      (((calculate_metrics i mde power).chart_data).map CurvePoint.error_rate) ∧
    (calculate_metrics i mde power).detection_threshold = mde ∧
    (∀ p ∈ (calculate_metrics i mde power).chart_data,
      p.true_lift = i.expected_lift ∧
      p.observed_lift =
        (i.baseline_conversion * (1 + i.expected_lift / 100) *
            (1 - (i.variation.event_loss / 100 + i.variation.user_id_error / 100 +
              p.error_rate / 100 * (i.variation.partial_data / 100))) /
          (i.baseline_conversion *
            (1 - (i.control.event_loss / 100 + i.control.user_id_error / 100 +
              p.error_rate / 100 * (i.control.partial_data / 100)))) - 1) * 100 ∧
      (p.significant = true ↔ |p.observed_lift| > mde)) := by
  have hmap : ((calculate_metrics i mde power).chart_data).map CurvePoint.error_rate =
      [0, 2, 4, 6, 8, 10, 12, 14, 16, 18, 20] := by
    show (chart_data i mde).map CurvePoint.error_rate = _
    rw [chart_data, error_rates]
    norm_num
  refine ⟨?_, hmap, ?_, rfl, ?_⟩
  · show (chart_data i mde).length = 11
    rw [chart_data, error_rates]
    rfl
  · rw [hmap]
    norm_num [List.chain'_cons]
  · intro p hp
    rw [show (calculate_metrics i mde power).chart_data = chart_data i mde from rfl,
      chart_data, List.mem_map] at hp
    obtain ⟨e, he, rfl⟩ := hp
    refine ⟨rfl, rfl, ?_⟩
    simp only [decide_eq_true_eq]


/-- Multiplicative attrition keeps a positive quantity positive and never
grows it. -/
theorem attrition_bounds (n a b : ℚ) (hn : 0 < n) (ha0 : 0 < a) (ha1 : a ≤ 1)
    (hb0 : 0 < b) (hb1 : b ≤ 1) : 0 < n * a * b ∧ n * a * b ≤ n := by
  constructor
  · positivity
  · have h1 : n * a ≤ n * 1 := mul_le_mul_of_nonneg_left ha1 hn.le
    have h2 : n * a * b ≤ n * a * 1 := mul_le_mul_of_nonneg_left hb1 (by positivity)
    rw [mul_one] at h1 h2
    linarith

/-- C7: range invariants of the result. -/
theorem c7_result_invariants (i : ExperimentInput) (mde power : ℚ)
    (hs : 0 < i.sample_size)
    (hc : valid_profile i.control) (hv : valid_profile i.variation) :
    0 < (calculate_metrics i mde power).effective_sample_size ∧
    (calculate_metrics i mde power).effective_sample_size ≤ (i.sample_size : ℚ) ∧
    0 ≤ (calculate_metrics i mde power).control_quality_score ∧
    (calculate_metrics i mde power).control_quality_score ≤ 100 ∧
    0 ≤ (calculate_metrics i mde power).variation_quality_score ∧
    (calculate_metrics i mde power).variation_quality_score ≤ 100 := by
  obtain ⟨hc1, hc2, hc3, hc4, hc5, hc6⟩ := hc
  obtain ⟨hv1, hv2, hv3, hv4, hv5, hv6⟩ := hv
  have hn : (0 : ℚ) < (i.sample_size : ℚ) := by exact_mod_cast hs
  have hcb := attrition_bounds ((i.sample_size : ℚ) / 2)
    (1 - i.control.user_id_error / 100) (1 - i.control.event_loss / 100)
    (by linarith) (by linarith) (by linarith) (by linarith) (by linarith)
  have hvb := attrition_bounds ((i.sample_size : ℚ) / 2)
    (1 - i.variation.user_id_error / 100) (1 - i.variation.event_loss / 100)
    (by linarith) (by linarith) (by linarith) (by linarith) (by linarith)
  have he : (calculate_metrics i mde power).effective_sample_size =
      control_effective_sample i + variation_effective_sample i := rfl
  rw [he, control_effective_sample, variation_effective_sample]
  have hq1 : (calculate_metrics i mde power).control_quality_score =
      100 - (i.control.event_loss + i.control.user_id_error +
        i.control.partial_data) / 3 := rfl
  have hq2 : (calculate_metrics i mde power).variation_quality_score =
      100 - (i.variation.event_loss + i.variation.user_id_error +
        i.variation.partial_data) / 3 := rfl
  rw [hq1, hq2]
  refine ⟨by linarith [hcb.1, hvb.1], by linarith [hcb.2, hvb.2],
    by linarith, by linarith, by linarith, by linarith⟩

/-- C7 witness at Scenario A. -/
theorem c7_result_invariants_witness :
    0 < (calculate_metrics scenario_a 1 1).effective_sample_size ∧
    (calculate_metrics scenario_a 1 1).effective_sample_size ≤
      (scenario_a.sample_size : ℚ) ∧
    0 ≤ (calculate_metrics scenario_a 1 1).control_quality_score ∧
    (calculate_metrics scenario_a 1 1).control_quality_score ≤ 100 ∧
    0 ≤ (calculate_metrics scenario_a 1 1).variation_quality_score ∧
    (calculate_metrics scenario_a 1 1).variation_quality_score ≤ 100 :=
  c7_result_invariants scenario_a 1 1 (by norm_num [scenario_a])
    (by norm_num [valid_profile, scenario_a]) (by norm_num [valid_profile, scenario_a])


/-- C4 counterexample: at the default inputs the engine returns an effective
sample of 9458.5, a bias risk of 3, and — because rule (a) of the conclusion
chain fires — the label for a likely false negative even when the reported
lift is below the detection threshold. -/
theorem c4_scenario_a_counterexample :
    (calculate_metrics scenario_a 1 0).effective_sample_size = 18917 / 2 ∧
    ¬|(18917 : ℚ) / 2 - 9611| ≤ 5 ∧
    (calculate_metrics scenario_a 1 0).bias_risk_score = 3 ∧
    (3 : ℚ) ≠ 4 ∧
    |(calculate_metrics scenario_a 1 0).actual_lift| <
      (calculate_metrics scenario_a 1 0).detection_threshold ∧
    (calculate_metrics scenario_a 1 0).conclusion = .likelyFalseNegative ∧
    Conclusion.likelyFalseNegative ≠ .inconclusive := by
  have hrl : reported_lift scenario_a = 65 / 97 := by
    norm_num [reported_lift, variation_observed_conversion,
      variation_expected_conversion, control_observed_conversion, scenario_a]
  have hdq : data_quality_impact scenario_a = 9 := by
    norm_num [data_quality_impact, scenario_a]
  have hqd : control_quality_score scenario_a - variation_quality_score scenario_a
      = 3 := by
    norm_num [control_quality_score, variation_quality_score, scenario_a]
  refine ⟨?_, ?_, ?_, by norm_num, ?_, ?_, by decide⟩
  · show total_effective_sample scenario_a = 18917 / 2
    norm_num [total_effective_sample, control_effective_sample,
      variation_effective_sample, scenario_a]
  · rw [abs_le]
    norm_num
  · show quality_difference scenario_a = 3
    rw [quality_difference, hqd, abs_of_pos] <;> norm_num
  · show |reported_lift scenario_a| < 1
    rw [hrl, abs_of_pos] <;> norm_num
  · show conclusion scenario_a 1 = .likelyFalseNegative
    rw [conclusion, if_pos]
    exact ⟨by rw [hrl]; norm_num,
      by rw [hrl]; show (65 : ℚ) / 97 < scenario_a.expected_lift; norm_num [scenario_a],
      by rw [hdq]; norm_num⟩

/-- C4 amended: the values the code actually produces at Scenario A, for any
detection threshold and power. -/
theorem c4_scenario_a_amended (mde power : ℚ) :
    (calculate_metrics scenario_a mde power).effective_sample_size = 18917 / 2 ∧
    (calculate_metrics scenario_a mde power).control_observed_conversion = 97 / 10 ∧
    (calculate_metrics scenario_a mde power).variation_observed_conversion
      = 1953 / 200 ∧
    (calculate_metrics scenario_a mde power).actual_lift = 65 / 97 ∧
    (calculate_metrics scenario_a mde power).bias_risk_score = 3 ∧
    (calculate_metrics scenario_a mde power).conclusion = .likelyFalseNegative := by
  have hrl : reported_lift scenario_a = 65 / 97 := by
    norm_num [reported_lift, variation_observed_conversion,
      variation_expected_conversion, control_observed_conversion, scenario_a]
  have hdq : data_quality_impact scenario_a = 9 := by
    norm_num [data_quality_impact, scenario_a]
  have hqd : control_quality_score scenario_a - variation_quality_score scenario_a
      = 3 := by
    norm_num [control_quality_score, variation_quality_score, scenario_a]
  refine ⟨?_, ?_, ?_, hrl, ?_, ?_⟩
  · show total_effective_sample scenario_a = 18917 / 2
    norm_num [total_effective_sample, control_effective_sample,
      variation_effective_sample, scenario_a]
  · show control_observed_conversion scenario_a = 97 / 10
    norm_num [control_observed_conversion, scenario_a]
  · show variation_observed_conversion scenario_a = 1953 / 200
    norm_num [variation_observed_conversion, variation_expected_conversion,
      scenario_a]
  · show quality_difference scenario_a = 3
    rw [quality_difference, hqd, abs_of_pos] <;> norm_num
  · show conclusion scenario_a mde = .likelyFalseNegative
    rw [conclusion, if_pos]
    exact ⟨by rw [hrl]; norm_num,
      by rw [hrl]; show (65 : ℚ) / 97 < scenario_a.expected_lift; norm_num [scenario_a],
      by rw [hdq]; norm_num⟩


/-- C6 counterexample: on `skew_input` the first curve point (error rate 0)
reports a lift of 0 while the step-3 actual lift is 100/9. -/
theorem c6_sweep_zero_counterexample :
    ((calculate_metrics skew_input 1 1).chart_data.map
        CurvePoint.observed_lift).head? = some 0 ∧
    (calculate_metrics skew_input 1 1).actual_lift = 100 / 9 ∧
    (0 : ℚ) ≠ 100 / 9 := by
  refine ⟨?_, ?_, by norm_num⟩
  · show ((chart_data skew_input 1).map CurvePoint.observed_lift).head? = some 0
    rw [chart_data, error_rates]
    simp only [List.map_cons, List.head?_cons, Option.some.injEq]
    norm_num [observed_lift, variation_observed_rate, variation_true_rate,
      variation_error_impact, control_observed_rate, control_error_impact,
      skew_input]
  · show reported_lift skew_input = 100 / 9
    norm_num [reported_lift, variation_observed_conversion,
      variation_expected_conversion, control_observed_conversion, skew_input]

/-- C6 amended: with both denominators nonzero, the two lifts coincide
exactly when the cross products of the observed rates agree. -/
theorem c6_sweep_zero_amended (i : ExperimentInput)
    (hc : control_observed_conversion i ≠ 0)
    (hc0 : control_observed_rate i 0 ≠ 0) :
    observed_lift i 0 = reported_lift i ↔
      variation_observed_rate i 0 * control_observed_conversion i =
        variation_observed_conversion i * control_observed_rate i 0 := by
  rw [observed_lift, reported_lift, mul_left_inj' (by norm_num : (100 : ℚ) ≠ 0),
    sub_left_inj, div_eq_div_iff hc0 hc]

/-- C6 witness: on `aligned_input` the cross products agree, so the two
lifts coincide. -/
theorem c6_sweep_zero_witness :
    observed_lift aligned_input 0 = reported_lift aligned_input :=
  (c6_sweep_zero_amended aligned_input
      (by norm_num [control_observed_conversion, aligned_input])
      (by norm_num [control_observed_rate, control_error_impact,
        aligned_input])).mpr
    (by norm_num [variation_observed_rate, variation_true_rate,
      variation_error_impact, control_observed_conversion,
      variation_observed_conversion, variation_expected_conversion,
      control_observed_rate, control_error_impact, aligned_input])

/-- C8 counterexample: a control event loss of -5 is outside the declared
range, yet the engine computes a fully-populated result — the attrition
factor even inflates the control sample above its share. -/
theorem c8_no_validation_counterexample :
    (calculate_metrics negative_loss_input 1 1).effective_sample_size
      = 19715 / 2 ∧
    (5000 : ℚ) < control_effective_sample negative_loss_input ∧
    ¬valid_profile negative_loss_input.control ∧
    ¬widget_valid negative_loss_input := by
  refine ⟨?_, ?_, ?_, ?_⟩
  · show total_effective_sample negative_loss_input = 19715 / 2
    norm_num [total_effective_sample, control_effective_sample,
      variation_effective_sample, negative_loss_input, scenario_a]
  · norm_num [control_effective_sample, negative_loss_input, scenario_a]
  · norm_num [valid_profile, negative_loss_input, scenario_a]
  · norm_num [widget_valid, negative_loss_input, scenario_a]

/-- C8 amended: the widget bounds are the only range enforcement, and under
them every denominator of the engine's rational part is strictly positive,
so no division degenerates. -/
theorem c8_denominators_amended (i : ExperimentInput) (h : widget_valid i) :
    0 < control_effective_sample i ∧
    0 < variation_effective_sample i ∧
    0 < control_observed_conversion i ∧
    control_observed_conversion i < 100 ∧
    0 < variation_observed_conversion i := by
  obtain ⟨hn1, hn2, hb1, hb2, hl1, hl2, hconf, ⟨hce1, hce2⟩, ⟨hci1, hci2⟩,
    ⟨hcp1, hcp2⟩, ⟨hve1, hve2⟩, ⟨hvi1, hvi2⟩, ⟨hvp1, hvp2⟩, hseg, htf⟩ := h
  have hnq : (100 : ℚ) ≤ (i.sample_size : ℚ) := by exact_mod_cast hn1
  have hb0 : 0 < i.baseline_conversion := by linarith
  refine ⟨?_, ?_, ?_, ?_, ?_⟩
  · rw [control_effective_sample]
    apply mul_pos (mul_pos (by linarith) (by linarith)) (by linarith)
  · rw [variation_effective_sample]
    apply mul_pos (mul_pos (by linarith) (by linarith)) (by linarith)
  · rw [control_observed_conversion]
    apply mul_pos hb0 (by linarith)
  · rw [control_observed_conversion]
    have hf1 : 1 - i.control.partial_data / 100 ≤ 1 := by linarith
    have := mul_le_mul_of_nonneg_left hf1 hb0.le
    rw [mul_one] at this
    linarith
  · rw [variation_observed_conversion, variation_expected_conversion]
    apply mul_pos (mul_pos hb0 (by linarith)) (by linarith)

/-- C8 witness at Scenario A. -/
theorem c8_denominators_witness :
    0 < control_effective_sample scenario_a ∧
    0 < variation_effective_sample scenario_a ∧
    0 < control_observed_conversion scenario_a ∧
    control_observed_conversion scenario_a < 100 ∧
    0 < variation_observed_conversion scenario_a :=
  c8_denominators_amended scenario_a (by norm_num [widget_valid, scenario_a])

end DataQuality
